import Mathlib

/-!
Verification development for the medic readiness-probe sidecar.

The Go sources are embedded shallowly: every outbound network interaction
(JSON-RPC block query, peer-count query, `web3_clientVersion`, the vendor
`GET /health` document) is abstracted into an `Env` record holding the result
each call would produce — `Except GoErr _` mirrors the `(value, error)`
return pairs of Go.  Pure decision logic is translated function-by-function
from the source; 64-bit integer conversions are made explicit with `% 2^64`.
-/

namespace Medic

/-- A transport- or decoding-level failure of one outbound call (a non-nil
Go error: connection refused, timeout, read failure, malformed JSON, ...). -/
inductive GoErr
  | transport
  | decode
  deriving DecidableEq

/-- The fields of the Nethermind `/health` JSON document that the Go code
reads: the top-level `status` string and, inside
`entries.node-health.data`, the `IsSyncing` boolean and the `Errors` list
(the nesting is flattened here; no other field is consulted). -/
structure NethermindHealth where
  status : String
  isSyncing : Bool
  errors : List String
  deriving DecidableEq

/-- The Erigon-style health report polled by the continuous-polling variant
(main.go): four status strings. -/
structure HealthResponse where
  checkBlock : String
  maxSecondsBehind : String
  minPeerCount : String
  synced : String
  deriving DecidableEq

/-- Results that the node endpoint would hand back to each outbound call made
during one evaluation.  `blockTime` is the uint64 timestamp of the latest
block (`blockNumber.Time()` resp. the decoded hex timestamp field); `now` is
`time.Now()` in whole unix seconds; `peerCount` is the uint64 from
`client.PeerCount`; `clientVersion` is the `web3_clientVersion` result
string; `health` is the decoded `/health` document. -/
structure Env where
  blockTime : Except GoErr Nat
  now : Int
  peerCount : Except GoErr Nat
  clientVersion : Except GoErr String
  health : Except GoErr NethermindHealth

/-- The two configured thresholds (`viper.GetInt`, i.e. 64-bit signed ints;
defaults 30-60 and 3). -/
structure Config where
  maxSecondsBehind : Int
  minPeers : Int

/-- The modulus of the 64-bit integer types of Go, `2^64`. -/
def U64MOD : Nat := 18446744073709551616

/-- The constant `2^63`, the first uint64 value that `int(x)` makes
negative. -/
def I64HALF : Nat := 9223372036854775808

/-- The Go conversion `uint64(i)` of a 64-bit signed value, and the amd64
behaviour of `uint64(f)` for an integral negative float (two-complement
wrap; the Go specification leaves the out-of-range float case
implementation-defined, and the standard gc/amd64 build produces this
value). -/
def toUInt64w (i : Int) : Nat := (i % (U64MOD : Int)).toNat

/-- The Go conversion `int(u)` of a uint64 (two-complement
reinterpretation, fully defined by the Go specification for
integer-to-integer conversions). -/
def toInt64w (n : Nat) : Int :=
  let m := n % U64MOD
  if m < I64HALF then (m : Int) else (m : Int) - (U64MOD : Int)

/-- Character-list prefix test (helper for `strings.Contains`). -/
def listStartsWith : List Char → List Char → Bool
  | [], _ => true
  | _ :: _, [] => false
  | a :: as, b :: bs => a == b && listStartsWith as bs

/-- Substring search on character lists (helper for `strings.Contains`). -/
def listContainsSub (pat : List Char) : List Char → Bool
  | [] => listStartsWith pat []
  | c :: rest => listStartsWith pat (c :: rest) || listContainsSub pat rest

/-- The Go test `strings.Contains s pat` (case-sensitive substring test; the
vendor markers are ASCII, so byte-level and character-level matching
coincide). -/
def stringContains (s pat : String) : Bool :=
  listContainsSub pat.toList s.toList

/-- `clients.DetectClientType` (clients/utils.go): issues
`web3_clientVersion` and classifies the result by a switch of
`strings.Contains` tests, in source order Nethermind, erigon, reth; any
transport/read/decode error is returned to the caller together with the
empty string (every error branch of the source reads `return "", err`). -/
def DetectClientType (env : Env) : String × Option GoErr :=
  match env.clientVersion with
  | .error e => ("", some e)
  | .ok v =>
    if stringContains v "Nethermind" then ("Nethermind", none)
    else if stringContains v "erigon" then ("Erigon", none)
    else if stringContains v "reth" then ("Reth", none)
    else ("Unknown", none)

/-- `blockDelta` of the final variant (part_004): dial or `BlockByNumber`
errors are returned; otherwise the delta between `time.Now()` and
`time.Unix(int64(blockNumber.Time()), 0)` is returned as an int.  The
branch for `delta > maxSecondsBehind` only logs — it still returns the delta
with a nil error, so the threshold itself produces no error here. -/
def blockDelta (env : Env) : Except GoErr Int :=
  match env.blockTime with
  | .error e => .error e
  | .ok t => .ok (env.now - toInt64w t)

/-- `checkNodePeers` of the final variant (part_004): dial or `PeerCount`
errors are returned; otherwise `count := int(peerCount)` is returned.  The
branch for `count < minPeers` only returns the count with a nil error. -/
def checkNodePeers (env : Env) : Except GoErr Int :=
  match env.peerCount with
  | .error e => .error e
  | .ok p => .ok (toInt64w p)

/-- `clients.NethermindHealthCheck`: `GET <url>/health`, decode; any error is
returned, otherwise the decoded document. -/
def NethermindHealthCheck (env : Env) : Except GoErr NethermindHealth :=
  env.health

/-- The outbound queries one evaluation can perform, in the order
`nodeHealth` issues them. -/
inductive Step
  | blockQuery
  | peerQuery
  | detectQuery
  | healthQuery
  deriving DecidableEq

/-- `nodeHealth` of the final variant (part_004, lines 296-367), paired with
the list of outbound queries actually performed.  Faithful control flow:
1. `blockDelta`; a returned error short-circuits to `false`.
2. `checkNodePeers`; a returned error short-circuits to `false`.
3. `DetectClientType`; its error is only logged (at info level).
4. Non-Nethermind: verdict is `peerCount >= minPeers && blockDelta <=
   maxSecondsBehind`.  Nethermind: a `NethermindHealthCheck` error, a
   non-empty `Errors` list, or `IsSyncing` each return `false`; otherwise
   the verdict is `!IsSyncing && peerCount >= minPeers && blockDelta <=
   maxSecondsBehind`.
(The source writes `if clientType != "Nethermind"` with the generic branch
first and an unreachable final `return false`; the branch test is flipped
here with the branches swapped accordingly.) -/
def nodeHealthRun (cfg : Config) (env : Env) : Bool × List Step :=
  match blockDelta env with
  | .error _ => (false, [Step.blockQuery])
  | .ok delta =>
    match checkNodePeers env with
    | .error _ => (false, [Step.blockQuery, Step.peerQuery])
    | .ok count =>
      if (DetectClientType env).1 = "Nethermind" then
        match NethermindHealthCheck env with
        | .error _ =>
          (false, [Step.blockQuery, Step.peerQuery, Step.detectQuery, Step.healthQuery])
        | .ok h =>
          if h.errors.length ≠ 0 then
            (false, [Step.blockQuery, Step.peerQuery, Step.detectQuery, Step.healthQuery])
          else if h.isSyncing then
            (false, [Step.blockQuery, Step.peerQuery, Step.detectQuery, Step.healthQuery])
          else
            (!h.isSyncing && decide (count ≥ cfg.minPeers) &&
              decide (delta ≤ cfg.maxSecondsBehind),
             [Step.blockQuery, Step.peerQuery, Step.detectQuery, Step.healthQuery])
      else
        (decide (count ≥ cfg.minPeers) && decide (delta ≤ cfg.maxSecondsBehind),
         [Step.blockQuery, Step.peerQuery, Step.detectQuery])

/-- The verdict component of `nodeHealthRun`. -/
def nodeHealth (cfg : Config) (env : Env) : Bool := (nodeHealthRun cfg env).1

/-- `blockDelta` of the earlier uint64-typed variant (part_002, lines
49-80): identical to the final variant except that the float delta is
returned as `uint64(delta)` — for a negative delta the standard amd64 build
wraps it two-complement (modelled by `toUInt64w`). -/
def blockDeltaU (env : Env) : Except GoErr Nat :=
  match env.blockTime with
  | .error e => .error e
  | .ok t => .ok (toUInt64w (env.now - toInt64w t))

/-- `checkNodePeers` of the part_002 variant: returns the uint64 peer count
unconverted (error branches as in the final variant). -/
def checkNodePeersU (env : Env) : Except GoErr Nat :=
  env.peerCount

/-- `nodeHealth` of the part_002 variant (lines 108-174): same control flow
as the final variant, with the comparisons done on uint64 values —
`peerCount >= uint64(viper.GetInt("min-peers"))` and `blockDelta <=
uint64(viper.GetInt("max-seconds-behind"))`. -/
def nodeHealthU (cfg : Config) (env : Env) : Bool :=
  match blockDeltaU env with
  | .error _ => false
  | .ok bdelta =>
    match checkNodePeersU env with
    | .error _ => false
    | .ok pc =>
      if (DetectClientType env).1 = "Nethermind" then
        match NethermindHealthCheck env with
        | .error _ => false
        | .ok h =>
          if h.errors.length ≠ 0 then false
          else if h.isSyncing then false
          else
            !h.isSyncing && decide (pc ≥ toUInt64w cfg.minPeers) &&
              decide (bdelta ≤ toUInt64w cfg.maxSecondsBehind)
      else
        decide (pc ≥ toUInt64w cfg.minPeers) &&
          decide (bdelta ≤ toUInt64w cfg.maxSecondsBehind)

/-- Outcome of running a piece of Go code that may panic. -/
inductive RunResult
  | ok (b : Bool)
  | panicked
  deriving DecidableEq

/-- `checkBlockDelta` of the part_001 variant (lines 49-78): both the
`ethclient.Dial` error and the `BlockByNumber` error are logged but NOT
returned, after which `blockNumber.Time()` dereferences the nil block —
a runtime panic.  On success the function returns the comparison of the
delta against `maxSecondsBehind`. -/
def checkBlockDeltaV1 (cfg : Config) (blockTime : Except GoErr Nat) (now : Int) : RunResult :=
  match blockTime with
  | .error _ => RunResult.panicked
  | .ok t =>
    if now - toInt64w t > cfg.maxSecondsBehind then RunResult.ok false
    else RunResult.ok true

/-- How the process start-up of the part_004 variant can end. -/
inductive StartupOutcome
  | running
  | fatalBindExit
  | panicked
  deriving DecidableEq

/-- The `main` of the part_004 variant (lines 199-224): a warm-up GET is
issued through a retrying client; if it ultimately fails, the error is
logged and then `defer resp.Body.Close()` dereferences the nil response —
a panic in the main goroutine that terminates the process.  Otherwise
`ListenAndServe` runs; a bind failure is fatal-logged (process exit), else
the server runs. -/
def mainStartup (warmup : Except GoErr Unit) (bind : Except GoErr Unit) : StartupOutcome :=
  match warmup with
  | .error _ => StartupOutcome.panicked
  | .ok _ =>
    match bind with
    | .error _ => StartupOutcome.fatalBindExit
    | .ok _ => StartupOutcome.running

/-- `isHealthyOrDisabled` (main.go, continuous-polling variant). -/
def isHealthyOrDisabled (status : String) : Bool :=
  status == "HEALTHY" || status == "DISABLED"

/-- One iteration of the polling loop of `checkNodeHealth` (main.go):
request or decode errors set the shared verdict to `false`; otherwise the
verdict is the conjunction of `isHealthyOrDisabled` over the four response
fields, in source order synced, min peer count, max seconds behind, check
block. -/
def pollIteration (r : Except GoErr HealthResponse) : Bool :=
  match r with
  | .error _ => false
  | .ok h =>
    isHealthyOrDisabled h.synced && isHealthyOrDisabled h.minPeerCount &&
      isHealthyOrDisabled h.maxSecondsBehind && isHealthyOrDisabled h.checkBlock

/-- `clients.CheckNethermindHealth` (clients/nethermind.go, lines 28-60):
transport/read/decode errors are returned as `(false, err)`; a decoded
document yields `(true, nil)` exactly when `status == "Healthy" &&
!IsSyncing && len(Errors) == 0`, and `(false, <error message>)`
otherwise. -/
def CheckNethermindHealth (r : Except GoErr NethermindHealth) : Bool × Option String :=
  match r with
  | .error _ => (false, some "request failed")
  | .ok h =>
    if h.status == "Healthy" && !h.isSyncing && h.errors.length == 0 then (true, none)
    else (false, some "Nethermind node is not healthy")

/-- Concrete evaluation for claim C1: a generic client whose block is 100 s
old against a 30 s threshold, with 10 peers. -/
def envC1 : Env :=
  { blockTime := .ok 1700000000
    now := 1700000100
    peerCount := .ok 10
    clientVersion := .ok "geth/v1.13.0"
    health := .ok ⟨"", false, []⟩ }

/-- Concrete evaluation for the claim C1 witness: a healthy generic
client. -/
def envC1w : Env :=
  { blockTime := .ok 1700000095
    now := 1700000100
    peerCount := .ok 10
    clientVersion := .ok "geth/v1.13.0"
    health := .ok ⟨"", false, []⟩ }

/-- Concrete evaluation for the claim C2 witness: the block query fails. -/
def envC2 : Env :=
  { blockTime := .error .transport
    now := 1700000100
    peerCount := .ok 10
    clientVersion := .ok "geth/v1.13.0"
    health := .ok ⟨"", false, []⟩ }

/-- Concrete evaluation for the claim C3 witness: a Nethermind version
string. -/
def envC3 : Env :=
  { blockTime := .ok 0
    now := 0
    peerCount := .ok 0
    clientVersion := .ok "Nethermind/v1.25.4"
    health := .ok ⟨"", false, []⟩ }

/-- Concrete evaluation for claim C4: a syncing Nethermind node with
healthy lag and peers. -/
def envC4 : Env :=
  { blockTime := .ok 1700000095
    now := 1700000100
    peerCount := .ok 10
    clientVersion := .ok "Nethermind/v1.25.4"
    health := .ok ⟨"", true, []⟩ }

/-- Concrete evaluation for claim C5: block timestamp 5 s in the future of
the observation time (negative lag), generic client, healthy peers. -/
def envC5 : Env :=
  { blockTime := .ok 1700000005
    now := 1700000000
    peerCount := .ok 10
    clientVersion := .ok "geth/v1.13.0"
    health := .ok ⟨"", false, []⟩ }

/-- Concrete evaluation for claim C6: a generic client reporting `2^63`
peers, healthy lag. -/
def envC6 : Env :=
  { blockTime := .ok 1700000000
    now := 1700000005
    peerCount := .ok 9223372036854775808
    clientVersion := .ok "geth/v1.13.0"
    health := .ok ⟨"", false, []⟩ }

/-- Concrete evaluation for the claim C6 witness: a healthy Erigon node. -/
def envC6w : Env :=
  { blockTime := .ok 1700000095
    now := 1700000100
    peerCount := .ok 12
    clientVersion := .ok "erigon/2.60.0"
    health := .ok ⟨"", false, []⟩ }

/-- Concrete evaluation for claim C7: the `web3_clientVersion` call fails,
everything else is healthy. -/
def envC7 : Env :=
  { blockTime := .ok 1700000095
    now := 1700000100
    peerCount := .ok 10
    clientVersion := .error .transport
    health := .ok ⟨"", false, []⟩ }

/-- The conversion `toInt64w` is the identity on values below `2^63`. -/
theorem toInt64w_small {n : Nat} (h : n < I64HALF) : toInt64w n = (n : Int) := by
  unfold toInt64w
  have h2 : n < U64MOD := lt_trans h (by norm_num [I64HALF, U64MOD])
  rw [Nat.mod_eq_of_lt h2]
  simp [h]

/-- Characterization of the composite verdict: `nodeHealth` is `true` exactly
when the block query and the peer query both succeed, the lag and peer-count
thresholds hold, and — when the detected client is Nethermind — the `/health`
document was obtained and reports no errors and no syncing. -/
theorem nodeHealth_true_iff (cfg : Config) (env : Env) :
    nodeHealth cfg env = true ↔
      ∃ d c, blockDelta env = .ok d ∧ checkNodePeers env = .ok c ∧
        cfg.minPeers ≤ c ∧ d ≤ cfg.maxSecondsBehind ∧
        ((DetectClientType env).1 = "Nethermind" →
          ∃ h, NethermindHealthCheck env = .ok h ∧ h.errors = [] ∧ h.isSyncing = false) := by
  unfold nodeHealth nodeHealthRun
  cases hb : blockDelta env with
  | error e => simp
  | ok d =>
    cases hp : checkNodePeers env with
    | error e => simp
    | ok c =>
      by_cases hct : (DetectClientType env).1 = "Nethermind"
      · simp only [hct, if_true]
        cases hh : NethermindHealthCheck env with
        | error e => simp
        | ok h =>
          by_cases he : h.errors.length ≠ 0
          · simp only [he, if_true]
            simp [List.length_eq_zero] at he
            simp [he]
          · simp only [he, if_false]
            simp only [ne_eq, not_not, List.length_eq_zero] at he
            cases hs : h.isSyncing with
            | true => simp [hs, he]
            | false => simp [hs, he, ge_iff_le, and_comm]
      · simp only [hct, if_neg hct]
        simp [hct, ge_iff_le, and_comm]

/-- Claim C1, counterexample: with the block lag (100 s) already above the
threshold (30 s) the evaluation does not short-circuit after the block-lag
check — the peer query and the client detection are still performed. -/
theorem nodeHealth_threshold_no_short_circuit :
    blockDelta envC1 = .ok 100 ∧ (30 : Int) < 100 ∧
    (nodeHealthRun ⟨30, 3⟩ envC1).2 ≠ [Step.blockQuery] ∧
    nodeHealthRun ⟨30, 3⟩ envC1 =
      (false, [Step.blockQuery, Step.peerQuery, Step.detectQuery]) :=
  ⟨rfl, by decide, by decide, rfl⟩

/-- Claim C1 (amended): the queries happen in the fixed order block-lag,
peer-count, detection (plus the vendor health endpoint for Nethermind); a
transport/decoding error on the block or peer query short-circuits the
evaluation to unhealthy; a threshold violation does not short-circuit, but
the verdict is healthy exactly when all three checks pass. -/
theorem nodeHealth_check_order_and_verdict (cfg : Config) (env : Env) :
    (∀ e, blockDelta env = .error e →
        nodeHealthRun cfg env = (false, [Step.blockQuery])) ∧
    (∀ d e, blockDelta env = .ok d → checkNodePeers env = .error e →
        nodeHealthRun cfg env = (false, [Step.blockQuery, Step.peerQuery])) ∧
    (∀ d c, blockDelta env = .ok d → checkNodePeers env = .ok c →
        (DetectClientType env).1 ≠ "Nethermind" →
        (nodeHealthRun cfg env).2 = [Step.blockQuery, Step.peerQuery, Step.detectQuery]) ∧
    (∀ d c, blockDelta env = .ok d → checkNodePeers env = .ok c →
        (DetectClientType env).1 = "Nethermind" →
        (nodeHealthRun cfg env).2 =
          [Step.blockQuery, Step.peerQuery, Step.detectQuery, Step.healthQuery]) ∧
    (nodeHealth cfg env = true ↔
      ∃ d c, blockDelta env = .ok d ∧ checkNodePeers env = .ok c ∧
        cfg.minPeers ≤ c ∧ d ≤ cfg.maxSecondsBehind ∧
        ((DetectClientType env).1 = "Nethermind" →
          ∃ h, NethermindHealthCheck env = .ok h ∧ h.errors = [] ∧ h.isSyncing = false)) := by
  refine ⟨?_, ?_, ?_, ?_, nodeHealth_true_iff cfg env⟩
  · intro e he
    unfold nodeHealthRun
    simp [he]
  · intro d e hd he
    unfold nodeHealthRun
    simp [hd, he]
  · intro d c hd hp hct
    unfold nodeHealthRun
    simp [hd, hp, hct]
  · intro d c hd hp hct
    unfold nodeHealthRun
    cases hh : NethermindHealthCheck env with
    | error e => simp [hd, hp, hct, hh]
    | ok h =>
      by_cases he : h.errors.length ≠ 0
      · simp [hd, hp, hct, hh, he]
      · cases hs : h.isSyncing <;> simp [hd, hp, hct, hh, he, hs]

/-- Witness for claim C1 at a concrete healthy input. -/
theorem nodeHealth_check_order_and_verdict_witness :
    (nodeHealthRun ⟨30, 3⟩ envC1w).2 =
      [Step.blockQuery, Step.peerQuery, Step.detectQuery] :=
  (nodeHealth_check_order_and_verdict ⟨30, 3⟩ envC1w).2.2.1 5 10 rfl rfl (by decide)

/-- Claim C2: fail-closed — a transport/decoding error on the block query,
on the peer query, or (for a detected Nethermind client) on the health
query makes the verdict unhealthy; no such error path can report healthy. -/
theorem nodeHealth_fail_closed (cfg : Config) (env : Env) :
    (∀ e, env.blockTime = .error e → nodeHealth cfg env = false) ∧
    (∀ e, env.peerCount = .error e → nodeHealth cfg env = false) ∧
    (∀ e, (DetectClientType env).1 = "Nethermind" → env.health = .error e →
      nodeHealth cfg env = false) := by
  refine ⟨?_, ?_, ?_⟩
  · intro e he
    unfold nodeHealth nodeHealthRun blockDelta
    simp [he]
  · intro e he
    unfold nodeHealth nodeHealthRun checkNodePeers
    cases hb : blockDelta env with
    | error _ => simp
    | ok d => simp [he]
  · intro e hct hh
    cases hv : nodeHealth cfg env with
    | false => rfl
    | true =>
      exfalso
      rcases (nodeHealth_true_iff cfg env).1 hv with ⟨d, c, _, _, _, _, hns⟩
      rcases hns hct with ⟨h, hh', _⟩
      rw [NethermindHealthCheck, hh] at hh'
      cases hh'

/-- Witness for claim C2: a block-query transport error yields unhealthy. -/
theorem nodeHealth_fail_closed_witness :
    nodeHealth ⟨30, 3⟩ envC2 = false :=
  (nodeHealth_fail_closed ⟨30, 3⟩ envC2).1 GoErr.transport rfl

/-- Claim C3: on a successful `web3_clientVersion` call, detection matches
the version string case-sensitively against the markers in the fixed
priority order Nethermind, erigon, reth (first match wins), and anything
else maps to Unknown. -/
theorem DetectClientType_priority (env : Env) (s : String)
    (hv : env.clientVersion = .ok s) :
    (stringContains s "Nethermind" = true →
      DetectClientType env = ("Nethermind", none)) ∧
    (stringContains s "Nethermind" = false → stringContains s "erigon" = true →
      DetectClientType env = ("Erigon", none)) ∧
    (stringContains s "Nethermind" = false → stringContains s "erigon" = false →
      stringContains s "reth" = true → DetectClientType env = ("Reth", none)) ∧
    (stringContains s "Nethermind" = false → stringContains s "erigon" = false →
      stringContains s "reth" = false → DetectClientType env = ("Unknown", none)) := by
  unfold DetectClientType
  rw [hv]
  refine ⟨?_, ?_, ?_, ?_⟩ <;> intros <;> simp_all

/-- Witness for claim C3 on a Nethermind version string. -/
theorem DetectClientType_priority_witness :
    DetectClientType envC3 = ("Nethermind", none) :=
  (DetectClientType_priority envC3 "Nethermind/v1.25.4" rfl).1 (by decide)

/-- Claim C4: for a detected Nethermind client with block and peer queries
succeeding, a decoded `/health` document blocks the verdict when `IsSyncing`
is true, blocks it when the error list is non-empty (whatever the syncing
flag), and otherwise leaves the verdict to the lag and peer thresholds. -/
theorem nethermind_sync_signal_mapping (cfg : Config) (env : Env) (d c : Int)
    (h : NethermindHealth)
    (hd : blockDelta env = .ok d) (hp : checkNodePeers env = .ok c)
    (hct : (DetectClientType env).1 = "Nethermind")
    (hh : env.health = .ok h) :
    (h.isSyncing = true → nodeHealth cfg env = false) ∧
    (h.errors ≠ [] → nodeHealth cfg env = false) ∧
    (h.isSyncing = false → h.errors = [] →
      nodeHealth cfg env =
        (decide (cfg.minPeers ≤ c) && decide (d ≤ cfg.maxSecondsBehind))) := by
  have hh' : NethermindHealthCheck env = .ok h := by
    rw [NethermindHealthCheck, hh]
  refine ⟨?_, ?_, ?_⟩
  · intro hs
    unfold nodeHealth nodeHealthRun
    by_cases he : h.errors.length ≠ 0 <;> simp [hd, hp, hct, hh', he, hs]
  · intro he
    have he' : h.errors.length ≠ 0 := by
      simpa [List.length_eq_zero] using he
    unfold nodeHealth nodeHealthRun
    simp [hd, hp, hct, hh', he']
  · intro hs he
    have he' : ¬h.errors.length ≠ 0 := by simp [List.length_eq_zero, he]
    unfold nodeHealth nodeHealthRun
    simp [hd, hp, hct, hh', he', hs, ge_iff_le]

/-- Witness for claim C4: a syncing Nethermind node is unhealthy. -/
theorem nethermind_sync_signal_mapping_witness :
    nodeHealth ⟨30, 3⟩ envC4 = false :=
  (nethermind_sync_signal_mapping ⟨30, 3⟩ envC4 5 10 ⟨"", true, []⟩ rfl rfl (by decide)
    rfl).1 rfl

/-- Claim C5: in the uint64-typed variant (part_002) the negative delta is
converted with `uint64(delta)`, which on the standard amd64 build wraps to
`2^64 - 5`; that exceeds any sane threshold, so negative clock skew alone
makes the verdict unhealthy — against the stated intent of the spec, which
the later int-typed variant (part_004, `nodeHealth`) implements: there the
same input is healthy. -/
theorem negative_lag_unhealthy_in_uint64_variant :
    (1700000000 : Int) - toInt64w 1700000005 = -5 ∧ (-5 : Int) ≤ 60 ∧
    blockDeltaU envC5 = .ok (U64MOD - 5) ∧
    nodeHealthU ⟨60, 3⟩ envC5 = false ∧
    nodeHealth ⟨60, 3⟩ envC5 = true :=
  ⟨by decide, by decide, rfl, by decide, by decide⟩

/-- Claim C6, counterexample: every threshold of the claim is satisfied
(lag 5 ≤ 30, peers `2^63` ≥ 3, generic client so the sync signal is
unknown), yet the verdict is unhealthy — `count := int(peerCount)` makes the
peer count negative. -/
theorem peer_wraparound_cex :
    blockDelta envC6 = .ok 5 ∧ (5 : Int) ≤ 30 ∧
    envC6.peerCount = .ok 9223372036854775808 ∧ (3 : Nat) ≤ 9223372036854775808 ∧
    (DetectClientType envC6).1 ≠ "Nethermind" ∧
    nodeHealth ⟨30, 3⟩ envC6 = false :=
  ⟨rfl, by decide, rfl, by decide, by decide, by decide⟩

/-- Claim C6 (amended): for peer counts below `2^63` (those that stay
non-negative under the Go conversion `int(peerCount)`), the verdict is
healthy whenever lag ≤ maxSecondsBehind, peers ≥ minPeers and the sync
signal is confirmed-not-syncing or unknown; violating any single bound flips
the verdict to unhealthy; and more lag, fewer peers or a confirmed-syncing
signal never turn an unhealthy verdict healthy. -/
theorem nodeHealth_bounds_and_monotone (cfg : Config) (env : Env) (d : Int) (p : Nat)
    (hd : blockDelta env = .ok d) (hp : env.peerCount = .ok p) (hp63 : p < I64HALF) :
    (d ≤ cfg.maxSecondsBehind → cfg.minPeers ≤ (p : Int) →
      ((DetectClientType env).1 = "Nethermind" →
        ∃ h, env.health = .ok h ∧ h.errors = [] ∧ h.isSyncing = false) →
      nodeHealth cfg env = true) ∧
    (cfg.maxSecondsBehind < d → nodeHealth cfg env = false) ∧
    ((p : Int) < cfg.minPeers → nodeHealth cfg env = false) ∧
    (∀ h : NethermindHealth, (DetectClientType env).1 = "Nethermind" →
      env.health = .ok h → (h.isSyncing = true ∨ h.errors ≠ []) →
      nodeHealth cfg env = false) ∧
    (∀ t1 t2 : Int, t1 ≤ t2 →
      nodeHealth cfg { env with now := t2 } = true →
      nodeHealth cfg { env with now := t1 } = true) ∧
    (∀ p2 : Nat, p ≤ p2 → p2 < I64HALF →
      nodeHealth cfg env = true →
      nodeHealth cfg { env with peerCount := .ok p2 } = true) ∧
    (∀ st errs, (DetectClientType env).1 = "Nethermind" →
      nodeHealth cfg { env with health := .ok ⟨st, true, errs⟩ } = false) := by
  have hc : checkNodePeers env = .ok ((p : Nat) : Int) := by
    simp [checkNodePeers, hp, toInt64w_small hp63]
  refine ⟨?_, ?_, ?_, ?_, ?_, ?_, ?_⟩
  · intro hmax hmin hns
    refine (nodeHealth_true_iff cfg env).2 ⟨d, (p : Int), hd, hc, hmin, hmax, ?_⟩
    intro hct
    rcases hns hct with ⟨h, hh, he, hs⟩
    exact ⟨h, by rw [NethermindHealthCheck, hh], he, hs⟩
  · intro hlt
    cases hv : nodeHealth cfg env with
    | false => rfl
    | true =>
      exfalso
      rcases (nodeHealth_true_iff cfg env).1 hv with ⟨d', c', hd', _, _, hmax', _⟩
      rw [hd] at hd'
      cases hd'
      omega
  · intro hlt
    cases hv : nodeHealth cfg env with
    | false => rfl
    | true =>
      exfalso
      rcases (nodeHealth_true_iff cfg env).1 hv with ⟨d', c', _, hp', hmin', _, _⟩
      rw [hc] at hp'
      cases hp'
      omega
  · intro h hct hh hbad
    cases hv : nodeHealth cfg env with
    | false => rfl
    | true =>
      exfalso
      rcases (nodeHealth_true_iff cfg env).1 hv with ⟨d', c', _, _, _, _, hns⟩
      rcases hns hct with ⟨h', hh', he', hs'⟩
      rw [NethermindHealthCheck, hh] at hh'
      cases hh'
      rcases hbad with hb | hb
      · rw [hb] at hs'
        cases hs'
      · exact hb he'
  · intro t1 t2 hle hv2
    obtain ⟨bt, hbt⟩ : ∃ bt, env.blockTime = .ok bt := by
      rw [blockDelta] at hd
      cases h' : env.blockTime with
      | error e => rw [h'] at hd; cases hd
      | ok bt => exact ⟨bt, rfl⟩
    have hd2 : blockDelta { env with now := t2 } = .ok (t2 - toInt64w bt) := by
      simp [blockDelta, hbt]
    have hd1 : blockDelta { env with now := t1 } = .ok (t1 - toInt64w bt) := by
      simp [blockDelta, hbt]
    rcases (nodeHealth_true_iff cfg _).1 hv2 with ⟨d2, c2, hd2', hp2, hmin2, hmax2, hns2⟩
    rw [hd2] at hd2'
    cases hd2'
    refine (nodeHealth_true_iff cfg _).2 ⟨t1 - toInt64w bt, c2, hd1, hp2, hmin2, ?_, hns2⟩
    omega
  · intro p2 hle hp63' hv
    rcases (nodeHealth_true_iff cfg env).1 hv with ⟨d', c', hd', hp', hmin', hmax', hns'⟩
    rw [hc] at hp'
    cases hp'
    have hc2 : checkNodePeers { env with peerCount := .ok p2 } = .ok ((p2 : Nat) : Int) := by
      simp [checkNodePeers, toInt64w_small hp63']
    refine (nodeHealth_true_iff cfg _).2 ⟨d', (p2 : Int), hd', hc2, ?_, hmax', hns'⟩
    have : (p : Int) ≤ (p2 : Int) := by exact_mod_cast hle
    omega
  · intro st errs hct
    cases hv : nodeHealth cfg { env with health := .ok ⟨st, true, errs⟩ } with
    | false => rfl
    | true =>
      exfalso
      rcases (nodeHealth_true_iff cfg _).1 hv with ⟨d', c', _, _, _, _, hns⟩
      rcases hns hct with ⟨h', hh', _, hs'⟩
      rw [NethermindHealthCheck] at hh'
      cases hh'
      cases hs'

/-- Witness for claim C6 at a concrete healthy input. -/
theorem nodeHealth_bounds_and_monotone_witness :
    nodeHealth ⟨30, 3⟩ envC6w = true :=
  (nodeHealth_bounds_and_monotone ⟨30, 3⟩ envC6w 5 12 rfl rfl (by decide)).1
    (by decide) (by decide) (by intro hct; exact absurd hct (by decide))

/-- Claim C7, counterexample: on an RPC failure the detector does not return
the Unknown client kind — it returns the empty string together with the
error. -/
theorem detect_error_not_unknown_cex :
    DetectClientType envC7 = ("", some GoErr.transport) ∧
    (DetectClientType envC7).1 ≠ "Unknown" :=
  ⟨rfl, by decide⟩

/-- Claim C7 (amended): on an RPC failure the detector returns the empty
string together with the (logged, non-fatal) error; the empty string is not
"Nethermind", so the evaluation proceeds with the generic strategy — the
verdict is exactly the lag-and-peers conjunction and detection failure never
by itself fails it. -/
theorem detect_error_degrades_to_generic (cfg : Config) (env : Env) (e : GoErr)
    (hv : env.clientVersion = .error e) :
    DetectClientType env = ("", some e) ∧
    (∀ d c, blockDelta env = .ok d → checkNodePeers env = .ok c →
      nodeHealth cfg env =
        (decide (cfg.minPeers ≤ c) && decide (d ≤ cfg.maxSecondsBehind))) := by
  have hdet : DetectClientType env = ("", some e) := by
    unfold DetectClientType
    rw [hv]
  refine ⟨hdet, ?_⟩
  intro d c hd hp
  unfold nodeHealth nodeHealthRun
  rw [hd, hp, hdet]
  simp [ge_iff_le]

/-- Witness for claim C7: with detection failing and a healthy node, the
verdict is still healthy. -/
theorem detect_error_degrades_to_generic_witness :
    nodeHealth ⟨30, 3⟩ envC7 = true := by
  have h := (detect_error_degrades_to_generic ⟨30, 3⟩ envC7 GoErr.transport rfl).2
    5 10 rfl rfl
  rw [h]
  decide

/-- Claim C8: two failures other than a port-bind failure escape the
fail-closed path.  At start-up (part_004 `main`), a warm-up request that
ultimately errors leaves the response nil and the deferred body close
panics, terminating the process.  Per-request (part_001 `checkBlockDelta`),
a failed `BlockByNumber` is logged but not returned and the nil block is
dereferenced — the evaluation panics instead of producing an unhealthy
verdict. -/
theorem startup_warmup_panic :
    mainStartup (.error GoErr.transport) (.ok ()) = StartupOutcome.panicked ∧
    mainStartup (.ok ()) (.error GoErr.transport) = StartupOutcome.fatalBindExit ∧
    checkBlockDeltaV1 ⟨60, 3⟩ (.error GoErr.transport) 1700000000 = RunResult.panicked :=
  ⟨rfl, rfl, rfl⟩

/-- Claim C9: `CheckNethermindHealth` accepts a decoded document exactly when
the top-level status is "Healthy", the node is not syncing and the error
list is empty; in particular a non-syncing, error-free document with any
other status is rejected with an error. -/
theorem CheckNethermindHealth_requires_healthy_status (h : NethermindHealth) :
    ((CheckNethermindHealth (.ok h)).1 = true ↔
      (h.status = "Healthy" ∧ h.isSyncing = false ∧ h.errors = [])) ∧
    (h.isSyncing = false → h.errors = [] → h.status ≠ "Healthy" →
      CheckNethermindHealth (.ok h) = (false, some "Nethermind node is not healthy")) := by
  have hred : CheckNethermindHealth (Except.ok h) =
      if h.status == "Healthy" && !h.isSyncing && h.errors.length == 0 then
        ((true : Bool), (none : Option String))
      else (false, some "Nethermind node is not healthy") := rfl
  constructor
  · rw [hred]
    by_cases hcond : (h.status == "Healthy" && !h.isSyncing && h.errors.length == 0) = true
    · rw [if_pos hcond]
      simp only [Bool.and_eq_true, beq_iff_eq, Bool.not_eq_true',
        List.length_eq_zero] at hcond
      simp [hcond]
    · rw [if_neg hcond]
      refine ⟨fun hfalse => Bool.noConfusion hfalse, fun hP => ?_⟩
      exact absurd (by simp [hP.1, hP.2.1, hP.2.2]) hcond
  · intro hs he hst
    rw [hred, if_neg (by simp [hs, he, hst])]

/-- Witness for claim C9: a non-syncing, error-free document whose status is
"Degraded" is rejected. -/
theorem CheckNethermindHealth_requires_healthy_status_witness :
    CheckNethermindHealth (.ok ⟨"Degraded", false, []⟩) =
      (false, some "Nethermind node is not healthy") :=
  (CheckNethermindHealth_requires_healthy_status ⟨"Degraded", false, []⟩).2 rfl rfl (by decide)

/-- Claim C10: one polling iteration of the continuous-polling variant sets
the shared verdict to healthy exactly when each of the four report fields is
"HEALTHY" or "DISABLED" (so a DISABLED check counts as passing). -/
theorem pollIteration_iff_healthy_or_disabled (h : HealthResponse) :
    pollIteration (.ok h) = true ↔
      ((h.synced = "HEALTHY" ∨ h.synced = "DISABLED") ∧
       (h.minPeerCount = "HEALTHY" ∨ h.minPeerCount = "DISABLED") ∧
       (h.maxSecondsBehind = "HEALTHY" ∨ h.maxSecondsBehind = "DISABLED") ∧
       (h.checkBlock = "HEALTHY" ∨ h.checkBlock = "DISABLED")) := by
  simp [pollIteration, isHealthyOrDisabled, Bool.and_eq_true, Bool.or_eq_true, beq_iff_eq,
    and_assoc]

/-- Witness for claim C10: a report with every check DISABLED is healthy. -/
theorem pollIteration_iff_healthy_or_disabled_witness :
    pollIteration (.ok ⟨"DISABLED", "DISABLED", "DISABLED", "DISABLED"⟩) = true :=
  (pollIteration_iff_healthy_or_disabled ⟨"DISABLED", "DISABLED", "DISABLED", "DISABLED"⟩).2
    (by simp)

end Medic
